import Mathlib

/-!
Verification of the authentication/authorization interceptor of the
asset-manager backend, shallowly embedded from:
  src/middlewareprovider/jwt_utils.go              (GenerateJWT, GenerateRefreshToken, ParseJWT, ParseRefreshToken)
  src/providers/middlewareprovider/middleware_service.go (JWTAuthMiddleware, RequireRole, GetUserAndRolesFromContext)

Tokens are JWTs signed with HMAC-SHA256.  Cryptographic signing is modelled
symbolically: a token records the key it was signed with, and signature
verification succeeds exactly when that key equals the key of the verifier and the
algorithm is the expected "HS256" (jwt.WithValidMethods restricts to HS256,
and the key functions additionally require an HMAC method, which HS256 is).
-/

namespace AssetAuth

/-- JSON-like claim values, as produced by encoding/json decoding into
`interface` values (strings, numbers, arrays, booleans, null). Numbers are
modelled as integers since all numeric claims here are unix second stamps. -/
inductive JVal where
  | str : String → JVal
  | num : Int → JVal
  | arr : List JVal → JVal
  | boolean : Bool → JVal
  | nullv : JVal

mutual

/-- Structural equality test for claim values. -/
def JVal.beq : JVal → JVal → Bool
  | JVal.str a, JVal.str b => a == b
  | JVal.num a, JVal.num b => a == b
  | JVal.arr a, JVal.arr b => JVal.beqList a b
  | JVal.boolean a, JVal.boolean b => a == b
  | JVal.nullv, JVal.nullv => true
  | _, _ => false

/-- Structural equality test for lists of claim values. -/
def JVal.beqList : List JVal → List JVal → Bool
  | [], [] => true
  | x :: xs, y :: ys => JVal.beq x y && JVal.beqList xs ys
  | _, _ => false

end

mutual

theorem JVal.beq_iff : ∀ (a b : JVal), (JVal.beq a b = true) ↔ a = b
  | JVal.str a, b => by cases b <;> simp [JVal.beq]
  | JVal.num a, b => by cases b <;> simp [JVal.beq]
  | JVal.arr a, b => by
      cases b <;> simp [JVal.beq]
      exact JVal.beqList_iff a _
  | JVal.boolean a, b => by cases b <;> simp [JVal.beq]
  | JVal.nullv, b => by cases b <;> simp [JVal.beq]

theorem JVal.beqList_iff : ∀ (a b : List JVal), (JVal.beqList a b = true) ↔ a = b
  | [], b => by cases b <;> simp [JVal.beqList]
  | x :: xs, [] => by simp [JVal.beqList]
  | x :: xs, y :: ys => by
      simp [JVal.beqList, JVal.beq_iff x y, JVal.beqList_iff xs ys]

end

instance : DecidableEq JVal :=
  fun a b => decidable_of_iff (JVal.beq a b = true) (JVal.beq_iff a b)

/-- `jwt.MapClaims`: a JSON object, keys unique in all tokens the system mints. -/
abbrev Claims := List (String × JVal)

/-- Map lookup `claims[k]`: `none` models an absent key. -/
def getClaim (c : Claims) (k : String) : Option JVal :=
  match c.find? (fun p => p.1 == k) with
  | some p => some p.2
  | none => none

/-- A decoded JWT: header algorithm, payload claims, and (symbolically) the
key its signature was produced with. -/
structure Token where
  alg : String
  claims : Claims
  key : String
deriving DecidableEq

/-- A header value on the wire: the empty string, a non-empty string that is
not a well-formed JWT, or a well-formed JWT. -/
inductive Wire where
  | empty
  | malformed
  | tok : Token → Wire
deriving DecidableEq

/-- The failure cases of `jwt.Parse` relevant to this code base. -/
inductive JwtErr where
  | malformedToken
  | badAlg
  | badSignature
  | expired
  | badExpType
deriving DecidableEq

/-- Error text produced by the golang-jwt v5 library for each failure. Only
the fact that none of these contains the substring
"invalid or expired token" matters to the middleware. -/
def jwtErrMsg : JwtErr → String
  | .malformedToken => "token is malformed: token contains an invalid number of segments"
  | .badAlg => "token is unverifiable: signing method is invalid"
  | .badSignature => "token signature is invalid: signature is invalid"
  | .expired => "token has invalid claims: token is expired"
  | .badExpType => "token has invalid claims: exp is invalid"

/-- golang-jwt v5 `exp` validation (leeway 0, `exp` not required): a present
numeric `exp` is valid iff `now` is strictly before it; an absent `exp` is
accepted; a non-numeric `exp` is a claims error. -/
def checkExp (c : Claims) (now : Int) : Option JwtErr :=
  match getClaim c "exp" with
  | none => none
  | some (JVal.num e) => if now < e then none else some JwtErr.expired
  | some _ => some JwtErr.badExpType

/-- `jwt.Parse(tokenStr, keyfunc, jwt.WithValidMethods(["HS256"]))` with a
key function returning `expectedKey`: decode, restrict the algorithm to
HS256, verify the signature, validate `exp`. On success the claims are
always `jwt.MapClaims` (the default claims type). -/
def jwtParse (expectedKey : String) (now : Int) : Wire → Except JwtErr Claims
  | Wire.empty => Except.error JwtErr.malformedToken
  | Wire.malformed => Except.error JwtErr.malformedToken
  | Wire.tok t =>
    if t.alg ≠ "HS256" then Except.error JwtErr.badAlg
    else if t.key ≠ expectedKey then Except.error JwtErr.badSignature
    else
      match checkExp t.claims now with
      | some e => Except.error e
      | none => Except.ok t.claims

/-- The `r.(string)` type assertion on a decoded roles element. -/
def jvalToStr : JVal → Option String
  | JVal.str s => some s
  | _ => none

/-- Defensive roles extraction of `ParseJWT`: if the `roles` claim exists and
is a JSON array, keep its string elements in order; otherwise the roles
slice stays nil (empty). -/
def rolesFromClaim : Option JVal → List String
  | some (JVal.arr xs) => xs.filterMap jvalToStr
  | _ => []

/-- `GenerateJWT` (jwt_utils.go:17): access token with `sub`, `roles`,
`typ`="access", `exp`=now+5min, `iat`=now, signed HS256 with the access
secret. `SignedString` cannot fail on these marshalable claims, so the
result is the token itself. -/
def GenerateJWT (jwtSecretKey : String) (now : Int) (userID : String) (roles : List String) : Token :=
  { alg := "HS256"
    claims := [("sub", JVal.str userID),
               ("roles", JVal.arr (roles.map JVal.str)),
               ("typ", JVal.str "access"),
               ("exp", JVal.num (now + 300)),
               ("iat", JVal.num now)]
    key := jwtSecretKey }

/-- `GenerateRefreshToken` (jwt_utils.go:29): refresh token with `sub`,
`typ`="refresh", `exp`=now+7days, signed HS256 with the refresh secret. -/
def GenerateRefreshToken (refreshTokenSecretKey : String) (now : Int) (userID : String) : Token :=
  { alg := "HS256"
    claims := [("sub", JVal.str userID),
               ("typ", JVal.str "refresh"),
               ("exp", JVal.num (now + 604800))]
    key := refreshTokenSecretKey }

/-- `ParseJWT` (jwt_utils.go:40): any `jwt.Parse` failure is wrapped as
"invalid or expired token: %w"; the claims are always MapClaims so the
"invalid token claims" branch is unreachable; a missing or non-string
`sub` is its own error; roles are extracted defensively. -/
def ParseJWT (jwtSecretKey : String) (now : Int) (w : Wire) : Except String (String × List String) :=
  match jwtParse jwtSecretKey now w with
  | Except.error e => Except.error ("invalid or expired token: " ++ jwtErrMsg e)
  | Except.ok claims =>
    match getClaim claims "sub" with
    | some (JVal.str sub) => Except.ok (sub, rolesFromClaim (getClaim claims "roles"))
    | _ => Except.error "invalid \x27sub\x27 claim"

/-- The Go comparison `claims["typ"] != "refresh"` is false exactly when the
claim is present and is the string "refresh". -/
def typIsRefresh : Option JVal → Bool
  | some (JVal.str s) => s == "refresh"
  | _ => false

/-- `ParseRefreshToken` (jwt_utils.go:75): any `jwt.Parse` failure collapses
to the single error "invalid or expired refresh token" (the underlying
error is discarded by `errors.New`); then `typ` must equal "refresh";
then `sub` must be a string. -/
def ParseRefreshToken (refreshTokenSecretKey : String) (now : Int) (w : Wire) : Except String String :=
  match jwtParse refreshTokenSecretKey now w with
  | Except.error _ => Except.error "invalid or expired refresh token"
  | Except.ok claims =>
    if !typIsRefresh (getClaim claims "typ") then
      Except.error "token is not a refresh token"
    else
      match getClaim claims "sub" with
      | some (JVal.str sub) => Except.ok sub
      | _ => Except.error "invalid \x27sub\x27 claim"

/-- `strings.Contains(s, pat)` via character lists: `hasPre p s` tests whether `p` starts `s`,
as the strings package does. -/
def hasPre : List Char → List Char → Bool
  | [], _ => true
  | _ :: _, [] => false
  | p :: ps, c :: cs => p == c && hasPre ps cs

/-- Substring occurrence at any position. -/
def subIn (pat : List Char) : List Char → Bool
  | [] => hasPre pat []
  | c :: cs => hasPre pat (c :: cs) || subIn pat cs

/-- `strings.Contains(s, pat)`. -/
def goContains (s pat : String) : Bool := subIn pat.data s.data

/-- One row of the `user_roles` table; `archivedAt = none` models
`archived_at IS NULL`. -/
structure RoleRow where
  userId : String
  role : String
  archivedAt : Option Int
deriving DecidableEq

/-- The database collaborator: either reachable with its current rows, or
failing (connection/query error). -/
inductive DB where
  | down
  | up : List RoleRow → DB
deriving DecidableEq

/-- `SELECT role FROM user_roles WHERE user_id = $1 AND archived_at IS NULL`. -/
def selectUserRoles (rows : List RoleRow) (uid : String) : List String :=
  (rows.filter (fun row => row.userId == uid && row.archivedAt == none)).map (fun row => row.role)

/-- `a.db.Select(&dbRoles, ...)`: the rows on success, an error when the
database is unreachable. -/
def dbSelectRoles : DB → String → Except String (List String)
  | DB.down, _ => Except.error "db error"
  | DB.up rows, uid => Except.ok (selectUserRoles rows uid)

/-- The inbound request as the middleware sees it: the "Authorization"
header and the "refresh_token" header. -/
structure Request where
  authorization : Wire
  refreshHeader : Wire
deriving DecidableEq

/-- What the interceptor does with a request: reject with an HTTP status and
reason string, or invoke the handler with an attached identity
(context user id and roles) after writing the listed response headers. -/
inductive Outcome where
  | reject : Nat → String → Outcome
  | proceed : String → List String → List (String × Token) → Outcome
deriving DecidableEq

/-- `JWTAuthMiddleware` (middleware_service.go:34): empty Authorization
header rejects 401; a `ParseJWT` error whose message contains
"invalid or expired token" enters the renewal branch (refresh header,
`ParseRefreshToken`, role query, mint and write both new tokens); any
other `ParseJWT` error rejects 401 "unauthorized"; success attaches the
parsed identity. `SignedString` cannot fail on the minted claims, so the
two signing-failure rejections are unreachable and the renewal branch
always reaches the header writes. -/
def JWTAuthMiddleware (jwtSecretKey refreshTokenSecretKey : String) (db : DB) (now : Int)
    (r : Request) : Outcome :=
  match r.authorization with
  | Wire.empty => Outcome.reject 401 "missing access token"
  | a =>
    match ParseJWT jwtSecretKey now a with
    | Except.ok (userID, roles) => Outcome.proceed userID roles []
    | Except.error msg =>
      if goContains msg "invalid or expired token" then
        match r.refreshHeader with
        | Wire.empty => Outcome.reject 401 "access token expired, and refresh token missing"
        | rw =>
          match ParseRefreshToken refreshTokenSecretKey now rw with
          | Except.error _ => Outcome.reject 401 "invalid or expired refresh token"
          | Except.ok userID =>
            match dbSelectRoles db userID with
            | Except.error _ => Outcome.reject 500 "failed to fetch roles"
            | Except.ok roles =>
              Outcome.proceed userID roles
                [("Authorization", GenerateJWT jwtSecretKey now userID roles),
                 ("Refresh_token", GenerateRefreshToken refreshTokenSecretKey now userID)]
      else Outcome.reject 401 "unauthorized"

/-- The per-request identity context as `RequireRole` reads it back:
the value under the user key if it is a string, the value under the roles
key if it is a string slice. -/
structure ReqCtx where
  userVal : Option String
  rolesVal : Option (List String)
deriving DecidableEq

/-- `GetUserAndRolesFromContext` (middleware_service.go:115). -/
def GetUserAndRolesFromContext (c : ReqCtx) : Except String (String × List String) :=
  match c.userVal with
  | none => Except.error "user ID not found in context"
  | some uid =>
    match c.rolesVal with
    | none => Except.error "roles not found in context"
    | some roles => Except.ok (uid, roles)

/-- The verdict of the role gate. -/
inductive GateOutcome where
  | proceed
  | reject : Nat → String → GateOutcome
deriving DecidableEq

/-- The loop `for _, role := range roles, if allowed[role] then next`:
true iff some caller role is in the allow-list (set membership; the Go
map built from `allowedRoles` holds exactly those keys). -/
def anyAllowed (allowedRoles : List String) : List String → Bool
  | [] => false
  | role :: rest => allowedRoles.contains role || anyAllowed allowedRoles rest

/-- `RequireRole` (middleware_service.go:91): missing context → 401
"unauthorized"; some role allowed → handler; otherwise 403 "forbidden". -/
def RequireRole (allowedRoles : List String) (c : ReqCtx) : GateOutcome :=
  match GetUserAndRolesFromContext c with
  | Except.error _ => GateOutcome.reject 401 "unauthorized"
  | Except.ok (_, roles) =>
    if anyAllowed allowedRoles roles then GateOutcome.proceed
    else GateOutcome.reject 403 "forbidden"

/-- `Except.isOk` without eliminating into data. -/
def exceptIsOk {ε α : Type} : Except ε α → Bool
  | Except.ok _ => true
  | Except.error _ => false

/-! Helper lemmas shared by the claim theorems. -/

theorem rolesFromClaim_strs (rs : List String) :
    rolesFromClaim (some (JVal.arr (rs.map JVal.str))) = rs := by
  simp only [rolesFromClaim]
  induction rs with
  | nil => rfl
  | cons r rest ih => simp [List.filterMap_cons, jvalToStr, ih]

theorem wrapped_msg_marker (e : JwtErr) :
    goContains ("invalid or expired token: " ++ jwtErrMsg e) "invalid or expired token" = true := by
  cases e <;> decide

theorem sub_err_no_marker :
    goContains "invalid \x27sub\x27 claim" "invalid or expired token" = false := by decide

theorem getClaim_cons_ne (k2 : String) (v : JVal) (c : Claims) (k : String)
    (h : (k2 == k) = false) : getClaim ((k2, v) :: c) k = getClaim c k := by
  simp [getClaim, List.find?, h]

theorem anyAllowed_iff (al rs : List String) :
    anyAllowed al rs = true ↔ ∃ role, role ∈ rs ∧ role ∈ al := by
  induction rs with
  | nil => simp [anyAllowed]
  | cons r rest ih =>
      simp only [anyAllowed, Bool.or_eq_true, ih, List.contains, List.elem_iff, List.mem_cons]
      constructor
      · rintro (h | ⟨role, hr, ha⟩)
        · exact ⟨r, Or.inl rfl, h⟩
        · exact ⟨role, Or.inr hr, ha⟩
      · rintro ⟨role, h | hr, ha⟩
        · subst h; exact Or.inl ha
        · exact Or.inr ⟨role, hr, ha⟩

theorem anyAllowed_empty_false (rs : List String) : anyAllowed [] rs = false := by
  induction rs with
  | nil => rfl
  | cons r rest ih => simp [anyAllowed, ih, List.contains]

/-! Claim theorems. -/

/-- C6: for every subject and role list, an access token minted by
`GenerateJWT` under key `k` at time `now` is accepted by `ParseJWT` under the
same key at any time before the five-minute TTL elapses, and yields exactly
the encoded subject and role list. -/
theorem c6_issue_verify_roundtrip (k : String) (now now2 : Int) (s : String) (rs : List String)
    (h : now2 < now + 300) :
    ParseJWT k now2 (Wire.tok (GenerateJWT k now s rs)) = Except.ok (s, rs) := by
  simp [ParseJWT, GenerateJWT, jwtParse, checkExp, getClaim, List.find?, h, rolesFromClaim_strs]

/-- Witness for C6 at a concrete subject, role list and clock. -/
theorem c6_issue_verify_roundtrip_witness :
    ParseJWT "k" 100 (Wire.tok (GenerateJWT "k" 0 "u1" ["admin", "employee"])) =
      Except.ok ("u1", ["admin", "employee"]) :=
  c6_issue_verify_roundtrip "k" 0 100 "u1" ["admin", "employee"] (by decide)

/-- C2 counterexample: the verification result does not distinguish expiry
from other invalidity. An expired but otherwise perfectly valid refresh
token and an unexpired refresh token with a forged signature produce the
very same error value from `ParseRefreshToken`; no distinct Expired error
kind exists. -/
theorem c2_counterexample :
    ParseRefreshToken "rk" 1000
        (Wire.tok ⟨"HS256",
          [("sub", JVal.str "u1"), ("typ", JVal.str "refresh"), ("exp", JVal.num 500)], "rk"⟩) =
      Except.error "invalid or expired refresh token" ∧
    ParseRefreshToken "rk" 1000
        (Wire.tok ⟨"HS256",
          [("sub", JVal.str "u1"), ("typ", JVal.str "refresh"), ("exp", JVal.num 2000)], "FORGED"⟩) =
      Except.error "invalid or expired refresh token" :=
  ⟨rfl, rfl⟩

/-- C2 amended: expiry is folded into the same merged invalid-or-expired
error as every other verification failure. For a token `t` that is valid in
every respect except a past `exp`, `ParseJWT` returns the wrapper message
around the library expiry error — the same "invalid or expired token"
wrapper used for all parse failures — and `ParseRefreshToken` returns the
single constant error it also returns for a badly signed token `u`. -/
theorem c2_expiry_merged (k : String) (now : Int) (t u : Token) (e : Int)
    (htAlg : t.alg = "HS256") (htKey : t.key = k)
    (htExp : getClaim t.claims "exp" = some (JVal.num e)) (he : e ≤ now)
    (hu : u.key ≠ k) :
    ParseJWT k now (Wire.tok t) =
      Except.error ("invalid or expired token: " ++ jwtErrMsg JwtErr.expired) ∧
    ParseRefreshToken k now (Wire.tok t) = Except.error "invalid or expired refresh token" ∧
    ParseRefreshToken k now (Wire.tok u) = Except.error "invalid or expired refresh token" ∧
    goContains ("invalid or expired token: " ++ jwtErrMsg JwtErr.expired)
      "invalid or expired token" = true ∧
    goContains ("invalid or expired token: " ++ jwtErrMsg JwtErr.badSignature)
      "invalid or expired token" = true := by
  have hc : checkExp t.claims now = some JwtErr.expired := by
    simp only [checkExp, htExp]
    rw [if_neg (by omega)]
  have hpt : jwtParse k now (Wire.tok t) = Except.error JwtErr.expired := by
    simp [jwtParse, htAlg, htKey, hc]
  have hpu : ∃ e2, jwtParse k now (Wire.tok u) = Except.error e2 := by
    by_cases hua : u.alg = "HS256"
    · exact ⟨JwtErr.badSignature, by simp [jwtParse, hua, hu]⟩
    · exact ⟨JwtErr.badAlg, by simp [jwtParse, hua]⟩
  obtain ⟨e2, hpu⟩ := hpu
  refine ⟨?_, ?_, ?_, wrapped_msg_marker JwtErr.expired, wrapped_msg_marker JwtErr.badSignature⟩
  · simp [ParseJWT, hpt]
  · simp [ParseRefreshToken, hpt]
  · simp [ParseRefreshToken, hpu]

/-- Witness for C2 amended at a concrete expired token and forged token. -/
theorem c2_expiry_merged_witness :
    ParseJWT "k" 10 (Wire.tok ⟨"HS256", [("sub", JVal.str "u1"), ("exp", JVal.num 5)], "k"⟩) =
      Except.error ("invalid or expired token: " ++ jwtErrMsg JwtErr.expired) ∧
    ParseRefreshToken "k" 10
        (Wire.tok ⟨"HS256", [("sub", JVal.str "u1"), ("exp", JVal.num 5)], "k"⟩) =
      Except.error "invalid or expired refresh token" ∧
    ParseRefreshToken "k" 10 (Wire.tok ⟨"HS256", [], "x"⟩) =
      Except.error "invalid or expired refresh token" ∧
    goContains ("invalid or expired token: " ++ jwtErrMsg JwtErr.expired)
      "invalid or expired token" = true ∧
    goContains ("invalid or expired token: " ++ jwtErrMsg JwtErr.badSignature)
      "invalid or expired token" = true :=
  c2_expiry_merged "k" 10 ⟨"HS256", [("sub", JVal.str "u1"), ("exp", JVal.num 5)], "k"⟩
    ⟨"HS256", [], "x"⟩ 5 rfl rfl rfl (by decide) (by decide)

/-- C7: `ParseRefreshToken` rejects every token whose `typ` claim is not the
string "refresh" even when signature, algorithm and expiry checks pass, and
in particular an access token minted by `GenerateJWT` is rejected for every
signing key, subject, role list and clock. -/
theorem c7_refresh_kind_check (rk : String) (now : Int) :
    (∀ (w : Wire) (c : Claims),
       jwtParse rk now w = Except.ok c →
       typIsRefresh (getClaim c "typ") = false →
       ParseRefreshToken rk now w = Except.error "token is not a refresh token") ∧
    (∀ (ak : String) (now0 now2 : Int) (s : String) (rs : List String),
       exceptIsOk (ParseRefreshToken rk now2 (Wire.tok (GenerateJWT ak now0 s rs))) = false) := by
  constructor
  · intro w c hw ht
    simp [ParseRefreshToken, hw, ht]
  · intro ak now0 now2 s rs
    by_cases hk : ak = rk
    · subst hk
      by_cases h2 : now2 < now0 + 300
      · simp [ParseRefreshToken, jwtParse, GenerateJWT, checkExp, getClaim, List.find?, h2,
              typIsRefresh, exceptIsOk]
      · simp [ParseRefreshToken, jwtParse, GenerateJWT, checkExp, getClaim, List.find?, h2,
              exceptIsOk]
    · simp [ParseRefreshToken, jwtParse, GenerateJWT, hk, exceptIsOk]

/-- Witness for C7: a well-signed unexpired token with `typ` "access" is
rejected by the kind check. -/
theorem c7_refresh_kind_check_witness :
    ParseRefreshToken "s" 10
        (Wire.tok ⟨"HS256",
          [("sub", JVal.str "u1"), ("typ", JVal.str "access"), ("exp", JVal.num 100)], "s"⟩) =
      Except.error "token is not a refresh token" :=
  (c7_refresh_kind_check "s" 10).1 _
    [("sub", JVal.str "u1"), ("typ", JVal.str "access"), ("exp", JVal.num 100)] rfl rfl

/-- C9: `ParseJWT` never inspects the `typ` claim — prepending any `typ`
claim to a token leaves its result unchanged — and consequently a token in
refresh format (`typ` "refresh", no roles) signed with the access secret is
accepted by `ParseJWT` while unexpired; cross-kind rejection rests solely on
the two secrets being distinct. -/
theorem c9_typ_not_inspected :
    (∀ (c : Claims) (sk k : String) (now : Int) (v : JVal),
       ParseJWT k now (Wire.tok ⟨"HS256", ("typ", v) :: c, sk⟩) =
         ParseJWT k now (Wire.tok ⟨"HS256", c, sk⟩)) ∧
    (∀ (k : String) (now now2 : Int) (s : String),
       now2 < now + 604800 →
       ParseJWT k now2 (Wire.tok (GenerateRefreshToken k now s)) = Except.ok (s, [])) := by
  constructor
  · intro c sk k now v
    have hsub : getClaim (("typ", v) :: c) "sub" = getClaim c "sub" :=
      getClaim_cons_ne "typ" v c "sub" rfl
    have hroles : getClaim (("typ", v) :: c) "roles" = getClaim c "roles" :=
      getClaim_cons_ne "typ" v c "roles" rfl
    have hexp : checkExp (("typ", v) :: c) now = checkExp c now := by
      simp [checkExp, getClaim_cons_ne "typ" v c "exp" rfl]
    by_cases hks : sk = k
    · subst hks
      cases hce : checkExp c now with
      | some e => simp [ParseJWT, jwtParse, hexp, hce]
      | none => simp [ParseJWT, jwtParse, hexp, hce, hsub, hroles]
    · simp [ParseJWT, jwtParse, hks]
  · intro k now now2 s h
    simp [ParseJWT, jwtParse, GenerateRefreshToken, checkExp, getClaim, List.find?, h,
          rolesFromClaim]

/-- Witness for C9: a refresh-format token signed with the access key is
accepted by `ParseJWT`. -/
theorem c9_typ_not_inspected_witness :
    ParseJWT "k" 100 (Wire.tok (GenerateRefreshToken "k" 0 "u1")) = Except.ok ("u1", []) :=
  c9_typ_not_inspected.2 "k" 0 100 "u1" (by decide)

/-- Every `jwt.Parse` failure of the access token routes the middleware into
the renewal branch and, past a non-empty refresh header carrying a valid
refresh token, to the role query and token minting. -/
theorem middleware_renewal (jk rk : String) (db : DB) (now : Int) (a rw : Wire)
    (e : JwtErr) (uid : String)
    (ha : a ≠ Wire.empty)
    (hp : jwtParse jk now a = Except.error e)
    (hrw : rw ≠ Wire.empty)
    (hrt : ParseRefreshToken rk now rw = Except.ok uid) :
    JWTAuthMiddleware jk rk db now ⟨a, rw⟩ =
      match dbSelectRoles db uid with
      | Except.error _ => Outcome.reject 500 "failed to fetch roles"
      | Except.ok roles =>
          Outcome.proceed uid roles
            [("Authorization", GenerateJWT jk now uid roles),
             ("Refresh_token", GenerateRefreshToken rk now uid)] := by
  have hpj : ParseJWT jk now a = Except.error ("invalid or expired token: " ++ jwtErrMsg e) := by
    simp [ParseJWT, hp]
  cases a with
  | empty => exact absurd rfl ha
  | malformed =>
      cases rw with
      | empty => exact absurd rfl hrw
      | malformed => simp [JWTAuthMiddleware, hpj, wrapped_msg_marker, hrt]
      | tok t => simp [JWTAuthMiddleware, hpj, wrapped_msg_marker, hrt]
  | tok t0 =>
      cases rw with
      | empty => exact absurd rfl hrw
      | malformed => simp [JWTAuthMiddleware, hpj, wrapped_msg_marker, hrt]
      | tok t => simp [JWTAuthMiddleware, hpj, wrapped_msg_marker, hrt]

/-- C1 counterexample: an access token whose signature does not verify (and
which is not expired) is not rejected terminally with 401 "unauthorized";
its wrapped error contains "invalid or expired token", so the middleware
reads the refresh header, queries roles and issues fresh tokens. -/
theorem c1_counterexample :
    JWTAuthMiddleware "ak" "rk" (DB.up [⟨"u1", "admin", none⟩]) 1000
        ⟨Wire.tok ⟨"HS256", [("sub", JVal.str "u1"), ("exp", JVal.num 2000)], "FORGED"⟩,
         Wire.tok (GenerateRefreshToken "rk" 900 "u1")⟩ =
      Outcome.proceed "u1" ["admin"]
        [("Authorization", GenerateJWT "ak" 1000 "u1" ["admin"]),
         ("Refresh_token", GenerateRefreshToken "rk" 1000 "u1")] ∧
    JWTAuthMiddleware "ak" "rk" (DB.up [⟨"u1", "admin", none⟩]) 1000
        ⟨Wire.tok ⟨"HS256", [("sub", JVal.str "u1"), ("exp", JVal.num 2000)], "FORGED"⟩,
         Wire.tok (GenerateRefreshToken "rk" 900 "u1")⟩ ≠
      Outcome.reject 401 "unauthorized" := by
  constructor
  · rfl
  · decide

/-- C1 amended: every `jwt.Parse` failure — bad signature, malformed token,
wrong algorithm, expiry alike — takes the renewal path, witnessed by the
middleware reading the refresh header (rejecting with the
missing-refresh-token reason when it is empty); the terminal 401
"unauthorized" rejection fires exactly for tokens that pass signature,
algorithm and expiry validation but carry a missing or non-string sub
claim. -/
theorem c1_unauthorized_only_for_bad_sub (jk rk : String) (db : DB) (now : Int) (a rw : Wire) :
    (∀ e : JwtErr, a ≠ Wire.empty → jwtParse jk now a = Except.error e → rw = Wire.empty →
       JWTAuthMiddleware jk rk db now ⟨a, rw⟩ =
         Outcome.reject 401 "access token expired, and refresh token missing") ∧
    (∀ c : Claims, a ≠ Wire.empty → jwtParse jk now a = Except.ok c →
       (∀ s : String, getClaim c "sub" ≠ some (JVal.str s)) →
       JWTAuthMiddleware jk rk db now ⟨a, rw⟩ = Outcome.reject 401 "unauthorized") := by
  constructor
  · intro e ha hp hrw
    subst hrw
    have hpj : ParseJWT jk now a = Except.error ("invalid or expired token: " ++ jwtErrMsg e) := by
      simp [ParseJWT, hp]
    cases a with
    | empty => exact absurd rfl ha
    | malformed => simp [JWTAuthMiddleware, hpj, wrapped_msg_marker]
    | tok t => simp [JWTAuthMiddleware, hpj, wrapped_msg_marker]
  · intro c ha hp hsub
    have hpj : ParseJWT jk now a = Except.error "invalid \x27sub\x27 claim" := by
      cases hc : getClaim c "sub" with
      | none => simp [ParseJWT, hp, hc]
      | some v =>
          cases v with
          | str s => exact absurd hc (hsub s)
          | num n => simp [ParseJWT, hp, hc]
          | arr xs => simp [ParseJWT, hp, hc]
          | boolean b => simp [ParseJWT, hp, hc]
          | nullv => simp [ParseJWT, hp, hc]
    cases a with
    | empty => exact absurd rfl ha
    | malformed => simp [JWTAuthMiddleware, hpj, sub_err_no_marker]
    | tok t => simp [JWTAuthMiddleware, hpj, sub_err_no_marker]

/-- Witness for C1 amended: a malformed access token with no refresh header
is answered with the missing-refresh rejection (the refresh header was
consulted), and a well-signed unexpired token whose sub claim is a number is
rejected 401 "unauthorized". -/
theorem c1_unauthorized_only_for_bad_sub_witness :
    JWTAuthMiddleware "ak" "rk" DB.down 50 ⟨Wire.malformed, Wire.empty⟩ =
      Outcome.reject 401 "access token expired, and refresh token missing" ∧
    JWTAuthMiddleware "ak" "rk" DB.down 50
        ⟨Wire.tok ⟨"HS256", [("sub", JVal.num 7)], "ak"⟩, Wire.empty⟩ =
      Outcome.reject 401 "unauthorized" :=
  ⟨(c1_unauthorized_only_for_bad_sub "ak" "rk" DB.down 50 Wire.malformed Wire.empty).1
      JwtErr.malformedToken (by decide) rfl rfl,
   (c1_unauthorized_only_for_bad_sub "ak" "rk" DB.down 50
        (Wire.tok ⟨"HS256", [("sub", JVal.num 7)], "ak"⟩) Wire.empty).2
      [("sub", JVal.num 7)] (by decide) rfl
      (by intro s h; simp [getClaim, List.find?] at h)⟩

/-- C3: on the renewal path the attached roles and the roles embedded in the
new access token are exactly the fresh database selection of non-archived
role rows for the refresh subject — a function of the database and subject
only, independent of any roles carried by either presented token — and a
failing role query rejects 500 "failed to fetch roles". -/
theorem c3_renewal_roles_fresh (jk rk : String) (db : DB) (now : Int) (a rw : Wire)
    (e : JwtErr) (uid : String)
    (ha : a ≠ Wire.empty)
    (hp : jwtParse jk now a = Except.error e)
    (hrw : rw ≠ Wire.empty)
    (hrt : ParseRefreshToken rk now rw = Except.ok uid) :
    (db = DB.down →
       JWTAuthMiddleware jk rk db now ⟨a, rw⟩ = Outcome.reject 500 "failed to fetch roles") ∧
    (∀ rows : List RoleRow, db = DB.up rows →
       JWTAuthMiddleware jk rk db now ⟨a, rw⟩ =
         Outcome.proceed uid (selectUserRoles rows uid)
           [("Authorization", GenerateJWT jk now uid (selectUserRoles rows uid)),
            ("Refresh_token", GenerateRefreshToken rk now uid)] ∧
       rolesFromClaim (getClaim (GenerateJWT jk now uid (selectUserRoles rows uid)).claims
           "roles") = selectUserRoles rows uid) := by
  constructor
  · intro hdb
    subst hdb
    rw [middleware_renewal jk rk DB.down now a rw e uid ha hp hrw hrt]
    rfl
  · intro rows hdb
    subst hdb
    refine ⟨?_, ?_⟩
    · rw [middleware_renewal jk rk (DB.up rows) now a rw e uid ha hp hrw hrt]
      rfl
    · simp [GenerateJWT, getClaim, List.find?, rolesFromClaim_strs]

/-- Witness for C3 at a concrete expired access token, valid refresh token
and a role table holding one active, one archived and one foreign row. -/
theorem c3_renewal_roles_fresh_witness :
    JWTAuthMiddleware "ak" "rk"
        (DB.up [⟨"u1", "admin", none⟩, ⟨"u1", "old_role", some 5⟩, ⟨"u2", "boss", none⟩]) 1000
        ⟨Wire.tok ⟨"HS256", [("sub", JVal.str "u1"), ("exp", JVal.num 900)], "ak"⟩,
         Wire.tok (GenerateRefreshToken "rk" 900 "u1")⟩ =
      Outcome.proceed "u1" ["admin"]
        [("Authorization", GenerateJWT "ak" 1000 "u1" ["admin"]),
         ("Refresh_token", GenerateRefreshToken "rk" 1000 "u1")] := by
  have h := (c3_renewal_roles_fresh "ak" "rk"
      (DB.up [⟨"u1", "admin", none⟩, ⟨"u1", "old_role", some 5⟩, ⟨"u2", "boss", none⟩]) 1000
      (Wire.tok ⟨"HS256", [("sub", JVal.str "u1"), ("exp", JVal.num 900)], "ak"⟩)
      (Wire.tok (GenerateRefreshToken "rk" 900 "u1")) JwtErr.expired "u1"
      (by decide) rfl (by decide) rfl).2
      [⟨"u1", "admin", none⟩, ⟨"u1", "old_role", some 5⟩, ⟨"u2", "boss", none⟩] rfl
  exact h.1

/-- C5: a request that completes renewal — expired access token, valid
refresh token, reachable role table — proceeds with identity built from the
refresh subject and the freshly selected roles, and the response headers
carry exactly the newly minted access and refresh tokens. -/
theorem c5_renewal_writes_headers (jk rk : String) (now : Int) (a rw : Wire)
    (uid : String) (rows : List RoleRow)
    (ha : a ≠ Wire.empty)
    (hp : jwtParse jk now a = Except.error JwtErr.expired)
    (hrw : rw ≠ Wire.empty)
    (hrt : ParseRefreshToken rk now rw = Except.ok uid) :
    JWTAuthMiddleware jk rk (DB.up rows) now ⟨a, rw⟩ =
      Outcome.proceed uid (selectUserRoles rows uid)
        [("Authorization", GenerateJWT jk now uid (selectUserRoles rows uid)),
         ("Refresh_token", GenerateRefreshToken rk now uid)] := by
  rw [middleware_renewal jk rk (DB.up rows) now a rw JwtErr.expired uid ha hp hrw hrt]
  rfl

/-- Witness for C5, mirroring scenario B: expired access token for u1, valid
refresh token, role table giving u1 the single role employee. -/
theorem c5_renewal_writes_headers_witness :
    JWTAuthMiddleware "ak" "rk" (DB.up [⟨"u1", "employee", none⟩]) 1000
        ⟨Wire.tok ⟨"HS256",
           [("sub", JVal.str "u1"), ("roles", JVal.arr [JVal.str "admin"]),
            ("exp", JVal.num 900)], "ak"⟩,
         Wire.tok (GenerateRefreshToken "rk" 900 "u1")⟩ =
      Outcome.proceed "u1" ["employee"]
        [("Authorization", GenerateJWT "ak" 1000 "u1" ["employee"]),
         ("Refresh_token", GenerateRefreshToken "rk" 1000 "u1")] :=
  c5_renewal_writes_headers "ak" "rk" 1000
    (Wire.tok ⟨"HS256",
       [("sub", JVal.str "u1"), ("roles", JVal.arr [JVal.str "admin"]),
        ("exp", JVal.num 900)], "ak"⟩)
    (Wire.tok (GenerateRefreshToken "rk" 900 "u1")) "u1" [⟨"u1", "employee", none⟩]
    (by decide) rfl (by decide) rfl

/-- C8: on a valid unexpired access token the middleware proceeds with the
identity embedded in that token, writes no response headers, and its verdict
is independent of the database (no role lookup happens on this path). -/
theorem c8_valid_token_cheap_path (jk rk : String) (db : DB) (now : Int) (r : Request)
    (u : String) (rs : List String)
    (h : ParseJWT jk now r.authorization = Except.ok (u, rs)) :
    JWTAuthMiddleware jk rk db now r = Outcome.proceed u rs [] ∧
    (∀ db2 : DB, JWTAuthMiddleware jk rk db2 now r = JWTAuthMiddleware jk rk db now r) := by
  obtain ⟨a, rw⟩ := r
  have step : ∀ d : DB, JWTAuthMiddleware jk rk d now ⟨a, rw⟩ = Outcome.proceed u rs [] := by
    intro d
    cases a with
    | empty => simp [ParseJWT, jwtParse] at h
    | malformed => simp [JWTAuthMiddleware, h]
    | tok t => simp [JWTAuthMiddleware, h]
  exact ⟨step db, fun db2 => (step db2).trans (step db).symm⟩

/-- Witness for C8, mirroring scenario A: a fresh admin token for u1
proceeds with that identity, no headers written, even with the database
down. -/
theorem c8_valid_token_cheap_path_witness :
    JWTAuthMiddleware "ak" "rk" DB.down 100
        ⟨Wire.tok (GenerateJWT "ak" 0 "u1" ["admin"]), Wire.empty⟩ =
      Outcome.proceed "u1" ["admin"] [] :=
  (c8_valid_token_cheap_path "ak" "rk" DB.down 100
    ⟨Wire.tok (GenerateJWT "ak" 0 "u1" ["admin"]), Wire.empty⟩ "u1" ["admin"] rfl).1

/-- C4: with an attached identity, `RequireRole` proceeds exactly when some
caller role belongs to the allow-list (logical OR), otherwise rejects 403
"forbidden"; an empty caller role set is rejected 403 for every allow-list;
and a context missing the user value, the roles value, or both is rejected
401 "unauthorized". -/
theorem c4_role_gate_or (allowed : List String) (u : String) (roles : List String) :
    (RequireRole allowed ⟨some u, some roles⟩ = GateOutcome.proceed ↔
       ∃ role, role ∈ roles ∧ role ∈ allowed) ∧
    (RequireRole allowed ⟨some u, some roles⟩ = GateOutcome.proceed ∨
       RequireRole allowed ⟨some u, some roles⟩ = GateOutcome.reject 403 "forbidden") ∧
    RequireRole allowed ⟨some u, some []⟩ = GateOutcome.reject 403 "forbidden" ∧
    RequireRole allowed ⟨none, some roles⟩ = GateOutcome.reject 401 "unauthorized" ∧
    RequireRole allowed ⟨some u, none⟩ = GateOutcome.reject 401 "unauthorized" ∧
    RequireRole allowed ⟨none, none⟩ = GateOutcome.reject 401 "unauthorized" := by
  refine ⟨?_, ?_, ?_, rfl, rfl, rfl⟩
  · cases ha : anyAllowed allowed roles with
    | true =>
        have hex := (anyAllowed_iff allowed roles).mp ha
        simp [RequireRole, GetUserAndRolesFromContext, ha, hex]
    | false =>
        have hnex : ¬ ∃ role, role ∈ roles ∧ role ∈ allowed := by
          intro h
          have hb := (anyAllowed_iff allowed roles).mpr h
          rw [ha] at hb
          exact Bool.false_ne_true hb
        simp [RequireRole, GetUserAndRolesFromContext, ha, hnex]
  · cases ha : anyAllowed allowed roles with
    | true => exact Or.inl (by simp [RequireRole, GetUserAndRolesFromContext, ha])
    | false => exact Or.inr (by simp [RequireRole, GetUserAndRolesFromContext, ha])
  · simp [RequireRole, GetUserAndRolesFromContext, anyAllowed]

/-- Witness for C4, mirroring scenario E: allow-list admin and
employee_manager, caller with the single role employee_manager, proceeds. -/
theorem c4_role_gate_or_witness :
    RequireRole ["admin", "employee_manager"] ⟨some "u1", some ["employee_manager"]⟩ =
      GateOutcome.proceed :=
  (c4_role_gate_or ["admin", "employee_manager"] "u1" ["employee_manager"]).1.mpr
    ⟨"employee_manager", by decide, by decide⟩

/-- C10 counterexample: with an empty allow-list a request without an
attached identity is rejected 401 "unauthorized", not with Forbidden, so the
gate does not reject every request with Forbidden. -/
theorem c10_counterexample :
    RequireRole [] ⟨none, none⟩ = GateOutcome.reject 401 "unauthorized" ∧
    RequireRole [] ⟨none, none⟩ ≠ GateOutcome.reject 403 "forbidden" := by
  exact ⟨rfl, by decide⟩

/-- C10 amended: a gate with an empty allow-list rejects every request that
carries an attached identity with 403 "forbidden", whatever its role set
(including any non-empty one), and never proceeds on any request; a request
without attached identity is rejected 401 "unauthorized" instead. -/
theorem c10_empty_allowlist_forbids (u : String) (roles : List String) (c : ReqCtx) :
    RequireRole [] ⟨some u, some roles⟩ = GateOutcome.reject 403 "forbidden" ∧
    RequireRole [] c ≠ GateOutcome.proceed := by
  constructor
  · simp [RequireRole, GetUserAndRolesFromContext, anyAllowed_empty_false]
  · obtain ⟨uv, rv⟩ := c
    cases uv with
    | none => simp [RequireRole, GetUserAndRolesFromContext]
    | some u2 =>
        cases rv with
        | none => simp [RequireRole, GetUserAndRolesFromContext]
        | some rs2 =>
            simp [RequireRole, GetUserAndRolesFromContext, anyAllowed_empty_false]

/-- Witness for C10 amended: an authenticated caller with a non-empty role
set is rejected 403 by the empty allow-list. -/
theorem c10_empty_allowlist_forbids_witness :
    RequireRole [] ⟨some "u1", some ["admin"]⟩ = GateOutcome.reject 403 "forbidden" :=
  (c10_empty_allowlist_forbids "u1" ["admin"] ⟨some "u1", some ["admin"]⟩).1

end AssetAuth
